import Mathlib

/-!
Shallow embedding of `src/langchain_mcp_example.py`, a demonstration script that
wires a chat LLM to a remote MCP tool server.  The embedding models:

* the process environment as a partial map from variable names to strings,
  with Python truthiness (`None` and `""` are falsy);
* `create_llm` (lines 33-79) as a total function returning `Except String LLM`,
  where `.error msg` models `raise ValueError(msg)`;
* `main` (lines 82-218) as a pure function of a `World` (environment, argv and
  oracles for the two network-bound operations), returning the process exit
  code, an ordered trace of observable events, and the per-query outcomes.
  An exception escaping `main` terminates the process with exit status 1
  (CPython behaviour for an unhandled exception propagated by `asyncio.run`);
* the AgentRunner generate/invoke loop, which the script delegates to the
  library function `create_agent` (not part of this repository), modelled from
  the specification.
-/

/-- The process environment: `none` models an unset variable
(`os.getenv` returning `None`). -/
abbrev Env : Type := String → Option String

/-- Python truthiness of an `os.getenv` result: `None` and the empty string
are falsy, every other string is truthy. -/
def truthy : Option String → Bool
  | none => false
  | some s => !(s == "")

/-- Models `os.getenv(key, default)`: the default is returned only when the
variable is unset (an empty string set in the environment is returned as is). -/
def getenvD (env : Env) (key dflt : String) : String :=
  (env key).getD dflt

/-- The chat-model handle produced by `create_llm`: one constructor per SDK
constructor used by the script (`ChatOpenAI`, `AzureChatOpenAI`,
`ChatAnthropic`), carrying exactly the arguments the script passes. -/
inductive LLM : Type where
  | chatOpenAI (model : String) (temperature : Nat) (openai_api_key : String)
  | azureChatOpenAI (azure_endpoint : String) (azure_deployment : String)
      (api_version : String) (api_key : String) (temperature : Nat)
  | chatAnthropic (model : String) (anthropic_api_key : String) (temperature : Nat)
  deriving DecidableEq

/-- The generation temperature carried by a model handle. -/
def LLM.temperature : LLM → Nat
  | .chatOpenAI _ t _ => t
  | .azureChatOpenAI _ _ _ _ t => t
  | .chatAnthropic _ _ t => t

/-- Message of the `ValueError` raised on line 38. -/
def openaiKeyRequiredMsg : String := "OPENAI_API_KEY environment variable is required"

/-- Message of the `ValueError` raised on lines 52-55 (the two adjacent Python
string literals concatenate). -/
def azureKeysRequiredMsg : String :=
  "AZURE_OPENAI_API_KEY, AZURE_OPENAI_ENDPOINT, and AZURE_OPENAI_DEPLOYMENT_NAME are required for Azure"

/-- Message of the `ValueError` raised on line 68. -/
def anthropicKeyRequiredMsg : String := "ANTHROPIC_API_KEY environment variable is required"

/-- Message of the `ValueError` raised on lines 77-79 for an unrecognized
provider string. -/
def unknownProviderMsg (provider : String) : String :=
  "Unknown provider: " ++ provider ++ ". Use \x27openai\x27, \x27azure\x27, or \x27claude\x27"

/-- Embedding of `create_llm(provider)` (lines 33-79).  The environment is an
explicit argument; `.error msg` models `raise ValueError(msg)`.  Python's
`if not api_key` and `if not all([...])` test truthiness, so an empty-string
credential counts as missing. -/
def create_llm (env : Env) (provider : String) : Except String LLM :=
  if provider = "openai" then
    let api_key := env "OPENAI_API_KEY"
    if !truthy api_key then
      .error openaiKeyRequiredMsg
    else
      .ok (.chatOpenAI (getenvD env "OPENAI_MODEL" "gpt-4o-mini") 0 (api_key.getD ""))
  else if provider = "azure" then
    let api_key := env "AZURE_OPENAI_API_KEY"
    let endpoint := env "AZURE_OPENAI_ENDPOINT"
    let deployment := env "AZURE_OPENAI_DEPLOYMENT_NAME"
    if !(truthy api_key && truthy endpoint && truthy deployment) then
      .error azureKeysRequiredMsg
    else
      .ok (.azureChatOpenAI (endpoint.getD "") (deployment.getD "")
        (getenvD env "AZURE_OPENAI_API_VERSION" "2024-02-15-preview") (api_key.getD "") 0)
  else if provider = "claude" then
    let api_key := env "ANTHROPIC_API_KEY"
    if !truthy api_key then
      .error anthropicKeyRequiredMsg
    else
      .ok (.chatAnthropic (getenvD env "ANTHROPIC_MODEL" "claude-3-5-sonnet-20241022")
        (api_key.getD "") 0)
  else
    .error (unknownProviderMsg provider)

/-- The closed set of provider identities `create_llm` recognizes, in the
order the dispatch tests them (lines 35, 46, 65). -/
def supportedProviders : List String := ["openai", "azure", "claude"]

/-- The environment variables whose truthiness the selected provider branch of
`create_llm` requires (lines 36-38, 47-55, 66-68). -/
def requiredVars : String → List String
  | "openai" => ["OPENAI_API_KEY"]
  | "azure" => ["AZURE_OPENAI_API_KEY", "AZURE_OPENAI_ENDPOINT", "AZURE_OPENAI_DEPLOYMENT_NAME"]
  | "claude" => ["ANTHROPIC_API_KEY"]
  | _ => []

/-- `strContains s t` holds when `t` occurs as a contiguous substring of `s`
(used to state that an error message names a credential). -/
def strContains (s t : String) : Prop := t.data <:+: s.data

instance (s t : String) : Decidable (strContains s t) :=
  List.decidableInfix t.data s.data

set_option maxRecDepth 16000

/-- The built-in example query (lines 149-151). -/
def exampleQuery : String := "Search for fraud recommendations from GAO"

/-- The query list `main` processes (lines 149-162): `sys.argv[1:]` joined with
single spaces when at least one command-line argument is present
(`len(sys.argv) > 1`), otherwise the built-in example query.  `argv` is the
full `sys.argv`, whose head is the script path. -/
def queriesOf (argv : List String) : List String :=
  if argv.length > 1 then [String.intercalate " " (argv.drop 1)] else [exampleQuery]

/-- Python's `str.lower()`, modelled as per-character lowercasing of the code
points (it agrees with Python on the ASCII provider identities the dispatch
compares against). -/
def strLower (s : String) : String := ⟨s.data.map Char.toLower⟩

/-- The provider string `main` dispatches on (line 87):
`os.getenv("LLM_PROVIDER", "openai").lower()`. -/
def resolvedProvider (env : Env) : String :=
  strLower (getenvD env "LLM_PROVIDER" "openai")

/-- Outcome of one iteration of the query loop (lines 165-211): either the
agent response's message contents, or the message of an exception caught by
the per-query `except` block (lines 206-209). -/
inductive QueryResult : Type where
  | answered (messages : List String)
  | failed (err : String)
  deriving DecidableEq

/-- The query loop of `main` (lines 165-211): each query is submitted to the
agent; an exception raised while executing a query is caught, recorded for
that query, and the loop continues with the next query.  The agent oracle
models `agent.ainvoke`, with `.error` modelling a raised exception. -/
def runQueries (agent : String → Except String (List String)) :
    List String → List QueryResult
  | [] => []
  | q :: rest =>
    (match agent q with
      | .ok msgs => QueryResult.answered msgs
      | .error e => QueryResult.failed e) :: runQueries agent rest

/-- Observable events of one run of `main`, in chronological order. -/
inductive Event : Type where
  /-- the network-bound tool-discovery call `client.get_tools()` (line 115),
  against the given endpoint URL -/
  | toolDiscovery (url : String)
  /-- the network-bound agent/model call `agent.ainvoke` for one query
  (lines 175-178) -/
  | modelCall (query : String)
  /-- the `PIA_API_KEY` error print followed by `sys.exit(1)` (lines 89-92) -/
  | missingKeyReport
  /-- a `ValueError` raised by `create_llm` (line 123) escaping `main` -/
  | configFailureReport (msg : String)
  /-- an exception raised by `client.get_tools()` (line 115) escaping `main` -/
  | discoveryFailureReport (msg : String)
  /-- the per-query error print of the `except` block (lines 206-209) -/
  | queryErrorReport (msg : String)
  deriving DecidableEq

/-- Whether an event is a network-bound call (tool discovery or model call). -/
def Event.isNetwork : Event → Bool
  | .toolDiscovery _ => true
  | .modelCall _ => true
  | _ => false

/-- Whether an event is the network-bound model/agent call. -/
def Event.isModelCall : Event → Bool
  | .modelCall _ => true
  | _ => false

/-- One run's inputs: the environment, the full `sys.argv`, and oracles for
the two network-bound operations.  `getTools` models `client.get_tools()`
(tool names, or a raised exception); `ainvoke` models `agent.ainvoke` per
query. -/
structure World : Type where
  env : Env
  argv : List String
  getTools : Except String (List String)
  ainvoke : String → Except String (List String)

/-- Result of one run of `main`: the process exit status, the chronological
trace of observable events, and the outcome of each processed query. -/
structure MainResult : Type where
  exitCode : Nat
  trace : List Event
  results : List QueryResult
  deriving DecidableEq

/-- Trace of the query loop (lines 165-211): a model call per query, followed
by the caught-error report when the invocation raises. -/
def queryEvents (agent : String → Except String (List String)) :
    List String → List Event
  | [] => []
  | q :: rest =>
    (Event.modelCall q ::
      match agent q with
      | .ok _ => []
      | .error e => [Event.queryErrorReport e]) ++ queryEvents agent rest

/-- Embedding of `main` (lines 82-218).  Control flow in source order: read
`PIA_MCP_URL` (with its default), `PIA_API_KEY` and `LLM_PROVIDER` (lines
85-87); exit 1 if `PIA_API_KEY` is not truthy (lines 89-92); otherwise fetch
tools (line 115), create the LLM (line 123), build the query list (lines
149-162) and run the query loop (lines 165-211), then return exit status 0.
An exception raised by `client.get_tools()` or `create_llm` is not caught, so
it escapes `main` and the process exits with status 1 (CPython behaviour for
an unhandled exception propagated by `asyncio.run`). -/
def runMain (w : World) : MainResult :=
  let mcp_url := getenvD w.env "PIA_MCP_URL" "https://mcp.programintegrity.org"
  let mcp_api_key := w.env "PIA_API_KEY"
  let llm_provider := resolvedProvider w.env
  if !truthy mcp_api_key then
    { exitCode := 1, trace := [.missingKeyReport], results := [] }
  else
    match w.getTools with
    | .error e =>
      { exitCode := 1, trace := [.toolDiscovery mcp_url, .discoveryFailureReport e],
        results := [] }
    | .ok _tools =>
      match create_llm w.env llm_provider with
      | .error e =>
        { exitCode := 1, trace := [.toolDiscovery mcp_url, .configFailureReport e],
          results := [] }
      | .ok _llm =>
        let queries := queriesOf w.argv
        { exitCode := 0,
          trace := Event.toolDiscovery mcp_url :: queryEvents w.ainvoke queries,
          results := runQueries w.ainvoke queries }

/-- Modelled from the spec: a ToolInvocationRequest (§3) — tool name, arguments
and correlation id — produced by the model during the AgentRunner loop.  The
script delegates the loop to the library function `create_agent`, whose code
is not part of this repository. -/
structure ToolInvocationRequest : Type where
  toolName : String
  arguments : String
  correlationId : Nat
  deriving DecidableEq

/-- Modelled from the spec: a ToolInvocationResult (§3), matched to its
request by correlation id. -/
structure ToolInvocationResult : Type where
  correlationId : Nat
  success : Bool
  payload : String
  deriving DecidableEq

/-- Modelled from the spec: a Message of a ConversationTurn (§3), a tagged
variant distinguishing the system instruction, the user message, a final
assistant message, an assistant message carrying tool-invocation requests,
and a tool result. -/
inductive AgentMessage : Type where
  | system (text : String)
  | user (text : String)
  | assistantFinal (text : String)
  | assistantToolCalls (reqs : List ToolInvocationRequest)
  | toolResult (r : ToolInvocationResult)
  deriving DecidableEq

/-- Modelled from the spec: the ModelHandle capability (§3) — given the
message sequence, the model produces either a final text message or a set of
requested tool invocations. -/
inductive ModelOutput : Type where
  | finalMessage (text : String)
  | toolRequests (reqs : List ToolInvocationRequest)
  deriving DecidableEq

/-- Modelled from the spec: `ToolLoopExceededError` (§4.3, §7), reported when
the Generate↔Invoke round-trip cap is exceeded. -/
inductive AgentError : Type where
  | toolLoopExceeded
  deriving DecidableEq

/-- Modelled from the spec: the AgentRunner state machine of §4.3 with the
required loop bound.  `model` is the model double (Generate), `invoke` the
ToolProvider invocation (Invoke), `fuel` the remaining Generate↔Invoke round
trips allowed.  Returns the final message sequence (Done) or
`ToolLoopExceededError`, paired with the number of Generate steps performed.
Tool results are appended in the order the model requested them. -/
def runTurnLoop (model : List AgentMessage → ModelOutput)
    (invoke : ToolInvocationRequest → ToolInvocationResult)
    (fuel : Nat) (msgs : List AgentMessage) :
    Except AgentError (List AgentMessage) × Nat :=
  match fuel with
  | 0 => (.error .toolLoopExceeded, 0)
  | fuel + 1 =>
    match model msgs with
    | .finalMessage t => (.ok (msgs ++ [.assistantFinal t]), 1)
    | .toolRequests reqs =>
      let next := msgs ++ AgentMessage.assistantToolCalls reqs ::
        reqs.map (fun r => AgentMessage.toolResult (invoke r))
      let res := runTurnLoop model invoke fuel next
      (res.1, res.2 + 1)

/-- Modelled from the spec: one AgentRunner turn (§4.3) — Start with the
system instruction and the user message, then run the bounded loop with the
configured cap. -/
def runTurn (model : List AgentMessage → ModelOutput)
    (invoke : ToolInvocationRequest → ToolInvocationResult)
    (cap : Nat) (systemPrompt userMsg : String) :
    Except AgentError (List AgentMessage) × Nat :=
  runTurnLoop model invoke cap [.system systemPrompt, .user userMsg]

/-- Test environment with only a truthy `OPENAI_API_KEY`. -/
def envOpenAIOnly : Env := fun k => if k = "OPENAI_API_KEY" then some "sk-test" else none

/-- Test environment with only a truthy `PIA_API_KEY`: the provider defaults
to openai, whose credential is absent. -/
def envPiaOnly : Env := fun k => if k = "PIA_API_KEY" then some "pia-key" else none

/-- Test environment with `PIA_API_KEY` and `OPENAI_API_KEY` set and
`PIA_MCP_URL` unset. -/
def envGood : Env := fun k =>
  if k = "PIA_API_KEY" then some "pia-key"
  else if k = "OPENAI_API_KEY" then some "sk-test" else none

/-- Test environment selecting the provider with a mixed-case string. -/
def envMixedCase : Env := fun k =>
  if k = "LLM_PROVIDER" then some "OpenAI"
  else if k = "PIA_API_KEY" then some "pia-key"
  else if k = "OPENAI_API_KEY" then some "sk-test" else none

/-- Empty test environment. -/
def envEmpty : Env := fun _ => none

/-- A run with complete configuration and succeeding network oracles. -/
def wGood : World :=
  { env := envGood, argv := ["langchain_mcp_example.py"],
    getTools := .ok ["search"], ainvoke := fun _ => .ok ["answer"] }

/-- A run whose environment carries the tool-endpoint credential but not the
selected provider's credential. -/
def wMissingOpenAIKey : World :=
  { env := envPiaOnly, argv := ["langchain_mcp_example.py"],
    getTools := .ok ["search"], ainvoke := fun _ => .ok ["answer"] }

/-- A run with an empty environment. -/
def wNoKey : World :=
  { env := envEmpty, argv := ["langchain_mcp_example.py"],
    getTools := .ok [], ainvoke := fun _ => .ok [] }

/-- Agent oracle that raises on the first of two test queries. -/
def agentFailsFirst : String → Except String (List String) :=
  fun q => if q = "q1" then .error "boom" else .ok ["fine"]

/-- Model double that requests a tool invocation regardless of the messages. -/
def modelAlwaysTools : List AgentMessage → ModelOutput :=
  fun _ => .toolRequests [⟨"search", "fraud", 1⟩]

/-- Tool-invocation stub answering every request. -/
def invokeStub : ToolInvocationRequest → ToolInvocationResult :=
  fun r => ⟨r.correlationId, true, "results"⟩

example : strContains openaiKeyRequiredMsg "OPENAI_API_KEY" := by decide
example : strContains azureKeysRequiredMsg "AZURE_OPENAI_ENDPOINT" := by decide
example : ¬ strContains openaiKeyRequiredMsg "Unknown provider" := by decide
example : create_llm (fun _ => none) "gpt" = .error (unknownProviderMsg "gpt") := by rfl
example : create_llm (fun k => if k = "OPENAI_API_KEY" then some "sk-1" else none) "openai"
    = .ok (.chatOpenAI "gpt-4o-mini" 0 "sk-1") := by rfl

/-! Branch lemmas for `create_llm`, one per arm of the provider dispatch. -/

theorem create_llm_openai_ok (env : Env) (hk : truthy (env "OPENAI_API_KEY") = true) :
    create_llm env "openai" =
      .ok (.chatOpenAI (getenvD env "OPENAI_MODEL" "gpt-4o-mini") 0
        ((env "OPENAI_API_KEY").getD "")) := by
  simp [create_llm, hk]

theorem create_llm_openai_missing (env : Env) (hk : truthy (env "OPENAI_API_KEY") = false) :
    create_llm env "openai" = .error openaiKeyRequiredMsg := by
  simp [create_llm, hk]

theorem create_llm_azure_ok (env : Env)
    (hk : truthy (env "AZURE_OPENAI_API_KEY") = true)
    (he : truthy (env "AZURE_OPENAI_ENDPOINT") = true)
    (hd : truthy (env "AZURE_OPENAI_DEPLOYMENT_NAME") = true) :
    create_llm env "azure" =
      .ok (.azureChatOpenAI ((env "AZURE_OPENAI_ENDPOINT").getD "")
        ((env "AZURE_OPENAI_DEPLOYMENT_NAME").getD "")
        (getenvD env "AZURE_OPENAI_API_VERSION" "2024-02-15-preview")
        ((env "AZURE_OPENAI_API_KEY").getD "") 0) := by
  simp [create_llm, hk, he, hd]

theorem create_llm_azure_missing (env : Env)
    (h : (truthy (env "AZURE_OPENAI_API_KEY") && truthy (env "AZURE_OPENAI_ENDPOINT")
      && truthy (env "AZURE_OPENAI_DEPLOYMENT_NAME")) = false) :
    create_llm env "azure" = .error azureKeysRequiredMsg := by
  simp [create_llm, h]

theorem create_llm_claude_ok (env : Env) (hk : truthy (env "ANTHROPIC_API_KEY") = true) :
    create_llm env "claude" =
      .ok (.chatAnthropic (getenvD env "ANTHROPIC_MODEL" "claude-3-5-sonnet-20241022")
        ((env "ANTHROPIC_API_KEY").getD "") 0) := by
  simp [create_llm, hk]

theorem create_llm_claude_missing (env : Env) (hk : truthy (env "ANTHROPIC_API_KEY") = false) :
    create_llm env "claude" = .error anthropicKeyRequiredMsg := by
  simp [create_llm, hk]

theorem create_llm_unknown (env : Env) (p : String)
    (h1 : p ≠ "openai") (h2 : p ≠ "azure") (h3 : p ≠ "claude") :
    create_llm env p = .error (unknownProviderMsg p) := by
  simp [create_llm, h1, h2, h3]

/-- Every handle `create_llm` returns carries temperature 0: the script passes
the literal `0` to each of the three SDK constructors (lines 42, 62, 73). -/
theorem temperature_of_create_llm (env : Env) (p : String) (llm : LLM)
    (h : create_llm env p = .ok llm) : llm.temperature = 0 := by
  simp only [create_llm] at h
  split_ifs at h <;> injection h with h2 <;> subst h2 <;> rfl

/-! Loop-bound lemmas for the spec-modelled AgentRunner. -/

theorem runTurnLoop_steps_le (model : List AgentMessage → ModelOutput)
    (invoke : ToolInvocationRequest → ToolInvocationResult)
    (fuel : Nat) (msgs : List AgentMessage) :
    (runTurnLoop model invoke fuel msgs).2 ≤ fuel := by
  induction fuel generalizing msgs with
  | zero => simp [runTurnLoop]
  | succ n ih =>
    cases hm : model msgs with
    | finalMessage t => simp [runTurnLoop, hm]
    | toolRequests reqs =>
      simp only [runTurnLoop, hm]
      exact Nat.succ_le_succ (ih _)

theorem runTurnLoop_alwaysTools (model : List AgentMessage → ModelOutput)
    (invoke : ToolInvocationRequest → ToolInvocationResult)
    (hm : ∀ ms, ∃ reqs, model ms = .toolRequests reqs)
    (fuel : Nat) (msgs : List AgentMessage) :
    (runTurnLoop model invoke fuel msgs).1 = .error .toolLoopExceeded := by
  induction fuel generalizing msgs with
  | zero => rfl
  | succ n ih =>
    obtain ⟨reqs, hr⟩ := hm msgs
    simp only [runTurnLoop, hr]
    exact ih _

/-- C2: one agent turn performs at most the configured maximum number of
Generate↔Invoke round trips, and against a model double that requests tool
invocations indefinitely it terminates with `ToolLoopExceededError` rather
than looping unboundedly. -/
theorem C2_tool_loop_bounded (model : List AgentMessage → ModelOutput)
    (invoke : ToolInvocationRequest → ToolInvocationResult)
    (cap : Nat) (systemPrompt userMsg : String)
    (hm : ∀ ms, ∃ reqs, model ms = .toolRequests reqs) :
    (runTurn model invoke cap systemPrompt userMsg).1 = .error .toolLoopExceeded ∧
    (runTurn model invoke cap systemPrompt userMsg).2 ≤ cap :=
  ⟨runTurnLoop_alwaysTools model invoke hm cap _, runTurnLoop_steps_le model invoke cap _⟩

/-- C2 witness: a concrete always-requesting model double with cap 5. -/
theorem C2_tool_loop_bounded_witness :
    (runTurn modelAlwaysTools invokeStub 5 "sys" "user").1 = .error .toolLoopExceeded ∧
    (runTurn modelAlwaysTools invokeStub 5 "sys" "user").2 ≤ 5 :=
  C2_tool_loop_bounded modelAlwaysTools invokeStub 5 "sys" "user" (fun _ => ⟨_, rfl⟩)

/-- C5 (amended): every model handle `create_llm` returns has generation
temperature 0 — the script passes the literal 0 to each of the three SDK
constructors; no configuration setting overrides it. -/
theorem C5_temperature_always_zero (env : Env) (p : String) (llm : LLM)
    (h : create_llm env p = .ok llm) : llm.temperature = 0 :=
  temperature_of_create_llm env p llm h

/-- C5 counterexample (negation of the override half of the claim): no
environment — hence no configuration setting — and no provider make
`create_llm` return a handle whose temperature differs from 0. -/
theorem C5_no_temperature_override :
    ¬ ∃ (env : Env) (p : String) (llm : LLM),
        create_llm env p = .ok llm ∧ llm.temperature ≠ 0 := by
  rintro ⟨env, p, llm, h, hne⟩
  exact hne (temperature_of_create_llm env p llm h)

/-- C5 witness: the openai handle built from a concrete environment. -/
theorem C5_temperature_always_zero_witness :
    create_llm envOpenAIOnly "openai" = .ok (.chatOpenAI "gpt-4o-mini" 0 "sk-test") ∧
    (LLM.chatOpenAI "gpt-4o-mini" 0 "sk-test").temperature = 0 :=
  ⟨by rfl, C5_temperature_always_zero envOpenAIOnly "openai" _ (by rfl)⟩

/-- C7: in the query loop, every query of the sequence yields exactly one
recorded outcome; the outcome at a position depends only on the agent's
behaviour on that query, so a caught failure of another query cannot affect
it; a query whose execution raises is recorded as failed for that query
only. -/
theorem C7_query_isolation (a₁ a₂ : String → Except String (List String))
    (qs : List String) (i : Nat) :
    (runQueries a₁ qs).length = qs.length ∧
    (∀ q, qs[i]? = some q → a₁ q = a₂ q →
      (runQueries a₁ qs)[i]? = (runQueries a₂ qs)[i]?) ∧
    (∀ q e, qs[i]? = some q → a₁ q = .error e →
      (runQueries a₁ qs)[i]? = some (QueryResult.failed e)) := by
  induction qs generalizing i with
  | nil => simp [runQueries]
  | cons q rest ih =>
    refine ⟨?_, ?_, ?_⟩
    · simpa [runQueries] using (ih 0).1
    · intro q' hq' hagree
      cases i with
      | zero =>
        simp only [List.getElem?_cons_zero, Option.some.injEq] at hq'
        subst hq'
        simp [runQueries, hagree]
      | succ n =>
        simp only [List.getElem?_cons_succ] at hq'
        simpa [runQueries] using (ih n).2.1 q' hq' hagree
    · intro q' e hq' herr
      cases i with
      | zero =>
        simp only [List.getElem?_cons_zero, Option.some.injEq] at hq'
        subst hq'
        simp [runQueries, herr]
      | succ n =>
        simp only [List.getElem?_cons_succ] at hq'
        simpa [runQueries] using (ih n).2.2 q' e hq' herr

/-- C7 witness: two queries where the first raises a caught error; both yield
outcomes and the first is recorded as failed. -/
theorem C7_query_isolation_witness :
    (runQueries agentFailsFirst ["q1", "q2"]).length = 2 ∧
    (runQueries agentFailsFirst ["q1", "q2"])[0]? = some (QueryResult.failed "boom") :=
  ⟨(C7_query_isolation agentFailsFirst agentFailsFirst ["q1", "q2"] 0).1,
   (C7_query_isolation agentFailsFirst agentFailsFirst ["q1", "q2"] 0).2.2 "q1" "boom" rfl rfl⟩

/-- C8: with at least one command-line argument, the arguments are joined with
single spaces into one string which becomes the single query of the run,
replacing the built-in example query; with zero arguments the built-in
example query is the single query. -/
theorem C8_argv_join (prog : String) (args : List String) (h : args ≠ []) :
    queriesOf (prog :: args) = [String.intercalate " " args] ∧
    (queriesOf (prog :: args)).length = 1 ∧
    queriesOf [prog] = [exampleQuery] := by
  have hlen : 1 < (prog :: args).length := by
    have := List.length_pos.mpr h
    simp only [List.length_cons]
    omega
  refine ⟨?_, ?_, rfl⟩
  · unfold queriesOf
    rw [if_pos hlen]
    rfl
  · unfold queriesOf
    rw [if_pos hlen]
    rfl

/-- C8 witness: two concrete arguments joined with a single space. -/
theorem C8_argv_join_witness :
    (["hello", "world"] : List String) ≠ [] ∧
    queriesOf ["langchain_mcp_example.py", "hello", "world"] = ["hello world"] := by
  refine ⟨by decide, ?_⟩
  rw [(C8_argv_join "langchain_mcp_example.py" ["hello", "world"] (by decide)).1]
  rfl

/-- C9: when `LLM_PROVIDER` is unset, the provider resolves to "openai" — the
first element of the closed provider list — and `create_llm` constructs the
model through the OpenAI branch. -/
theorem C9_default_provider (env : Env) (h : env "LLM_PROVIDER" = none) :
    resolvedProvider env = "openai" ∧
    supportedProviders.head? = some "openai" ∧
    (truthy (env "OPENAI_API_KEY") = true →
      create_llm env (resolvedProvider env) =
        .ok (.chatOpenAI (getenvD env "OPENAI_MODEL" "gpt-4o-mini") 0
          ((env "OPENAI_API_KEY").getD ""))) := by
  have h1 : resolvedProvider env = "openai" := by
    unfold resolvedProvider getenvD
    rw [h]
    rfl
  exact ⟨h1, rfl, fun hk => by rw [h1]; exact create_llm_openai_ok env hk⟩

/-- C9 witness: a concrete environment without `LLM_PROVIDER`. -/
theorem C9_default_provider_witness :
    envOpenAIOnly "LLM_PROVIDER" = none ∧
    resolvedProvider envOpenAIOnly = "openai" ∧
    create_llm envOpenAIOnly (resolvedProvider envOpenAIOnly) =
      .ok (.chatOpenAI "gpt-4o-mini" 0 "sk-test") := by
  refine ⟨rfl, (C9_default_provider envOpenAIOnly rfl).1, ?_⟩
  rw [(C9_default_provider envOpenAIOnly rfl).2.2 (by rfl)]
  rfl

/-- The unknown-provider message always contains the marker text
"Unknown provider", whatever the rejected identity. -/
theorem unknownProviderMsg_contains (p : String) :
    strContains (unknownProviderMsg p) "Unknown provider" := by
  have hsplit : ("Unknown provider: " : String).data
      = ("Unknown provider" : String).data ++ (": " : String).data := by decide
  refine ⟨[], (": " : String).data ++ p.data
    ++ (". Use \x27openai\x27, \x27azure\x27, or \x27claude\x27" : String).data, ?_⟩
  simp [unknownProviderMsg, String.data_append, hsplit]

/-- C1: for each of the three supported provider identities, `create_llm`
with every required credential truthy returns a model handle; with any
required credential missing it raises that branch's configuration
`ValueError`, whose message names the missing credential and is not the
unknown-provider failure; for every unrecognized identity it raises the
distinct unknown-provider `ValueError`. -/
theorem C1_create_llm_contract (env : Env) (p : String) :
    (p ∈ supportedProviders →
      ((∀ v ∈ requiredVars p, truthy (env v) = true) →
        ∃ llm, create_llm env p = .ok llm) ∧
      ((∃ v ∈ requiredVars p, truthy (env v) = false) →
        ∃ msg, create_llm env p = .error msg ∧
          (∀ v ∈ requiredVars p, truthy (env v) = false → strContains msg v) ∧
          ¬ strContains msg "Unknown provider")) ∧
    (p ∉ supportedProviders →
      create_llm env p = .error (unknownProviderMsg p) ∧
      strContains (unknownProviderMsg p) "Unknown provider") := by
  constructor
  · intro hp
    simp only [supportedProviders, List.mem_cons, List.not_mem_nil, or_false] at hp
    rcases hp with hp | hp | hp <;> subst hp
    · constructor
      · intro hall
        exact ⟨_, create_llm_openai_ok env (hall "OPENAI_API_KEY" (by simp [requiredVars]))⟩
      · rintro ⟨v, hv, hnv⟩
        simp only [requiredVars, List.mem_cons, List.not_mem_nil, or_false] at hv
        subst hv
        refine ⟨openaiKeyRequiredMsg, create_llm_openai_missing env hnv, ?_, by decide⟩
        intro v hv _
        simp only [requiredVars, List.mem_cons, List.not_mem_nil, or_false] at hv
        subst hv
        decide
    · constructor
      · intro hall
        exact ⟨_, create_llm_azure_ok env
          (hall "AZURE_OPENAI_API_KEY" (by simp [requiredVars]))
          (hall "AZURE_OPENAI_ENDPOINT" (by simp [requiredVars]))
          (hall "AZURE_OPENAI_DEPLOYMENT_NAME" (by simp [requiredVars]))⟩
      · rintro ⟨v, hv, hnv⟩
        have hand : (truthy (env "AZURE_OPENAI_API_KEY") && truthy (env "AZURE_OPENAI_ENDPOINT")
            && truthy (env "AZURE_OPENAI_DEPLOYMENT_NAME")) = false := by
          simp only [requiredVars, List.mem_cons, List.not_mem_nil, or_false] at hv
          rcases hv with hv | hv | hv <;> subst hv <;> simp [hnv]
        refine ⟨azureKeysRequiredMsg, create_llm_azure_missing env hand, ?_, by decide⟩
        intro v' hv' _
        simp only [requiredVars, List.mem_cons, List.not_mem_nil, or_false] at hv'
        rcases hv' with hv' | hv' | hv' <;> subst hv' <;> decide
    · constructor
      · intro hall
        exact ⟨_, create_llm_claude_ok env (hall "ANTHROPIC_API_KEY" (by simp [requiredVars]))⟩
      · rintro ⟨v, hv, hnv⟩
        simp only [requiredVars, List.mem_cons, List.not_mem_nil, or_false] at hv
        subst hv
        refine ⟨anthropicKeyRequiredMsg, create_llm_claude_missing env hnv, ?_, by decide⟩
        intro v hv _
        simp only [requiredVars, List.mem_cons, List.not_mem_nil, or_false] at hv
        subst hv
        decide
  · intro hp
    simp only [supportedProviders, List.mem_cons, List.not_mem_nil, or_false, not_or] at hp
    obtain ⟨h1, h2, h3⟩ := hp
    exact ⟨create_llm_unknown env p h1 h2 h3, unknownProviderMsg_contains p⟩

/-- C1 witness: a successful openai creation and a rejected unknown
identity, on concrete environments. -/
theorem C1_create_llm_contract_witness :
    ("openai" ∈ supportedProviders ∧ ∃ llm, create_llm envOpenAIOnly "openai" = .ok llm) ∧
    ("gpt5" ∉ supportedProviders ∧
      create_llm envOpenAIOnly "gpt5" = .error (unknownProviderMsg "gpt5")) :=
  ⟨⟨by decide, ((C1_create_llm_contract envOpenAIOnly "openai").1 (by decide)).1 (by decide)⟩,
   ⟨by decide, ((C1_create_llm_contract envOpenAIOnly "gpt5").2 (by decide)).1⟩⟩

/-- C10: `main` lowercases the `LLM_PROVIDER` value before dispatch, so every
value whose lowercasing is a supported identity selects that provider and
never hits the unknown-provider failure, while `create_llm` itself matches
the provider string case-sensitively and rejects "OpenAI". -/
theorem C10_provider_lowercasing (env : Env) (v : String)
    (hv : env "LLM_PROVIDER" = some v) (hcase : strLower v ∈ supportedProviders) :
    resolvedProvider env = strLower v ∧
    (∀ msg, create_llm env (resolvedProvider env) = .error msg →
      ¬ strContains msg "Unknown provider") ∧
    "OpenAI" ∉ supportedProviders ∧
    (∀ e : Env, create_llm e "OpenAI" = .error (unknownProviderMsg "OpenAI")) := by
  have h1 : resolvedProvider env = strLower v := by
    unfold resolvedProvider getenvD
    rw [hv]
    rfl
  refine ⟨h1, ?_, by decide,
    fun e => create_llm_unknown e "OpenAI" (by decide) (by decide) (by decide)⟩
  intro msg hmsg
  rw [h1] at hmsg
  simp only [supportedProviders, List.mem_cons, List.not_mem_nil, or_false] at hcase
  rcases hcase with hc | hc | hc <;> rw [hc] at hmsg
  · cases hk : truthy (env "OPENAI_API_KEY") with
    | false =>
      rw [create_llm_openai_missing env hk] at hmsg
      injection hmsg with h2
      subst h2
      decide
    | true =>
      rw [create_llm_openai_ok env hk] at hmsg
      exact absurd hmsg (by simp)
  · cases hand : (truthy (env "AZURE_OPENAI_API_KEY") && truthy (env "AZURE_OPENAI_ENDPOINT")
        && truthy (env "AZURE_OPENAI_DEPLOYMENT_NAME")) with
    | false =>
      rw [create_llm_azure_missing env hand] at hmsg
      injection hmsg with h2
      subst h2
      decide
    | true =>
      simp only [Bool.and_eq_true] at hand
      rw [create_llm_azure_ok env hand.1.1 hand.1.2 hand.2] at hmsg
      exact absurd hmsg (by simp)
  · cases hk : truthy (env "ANTHROPIC_API_KEY") with
    | false =>
      rw [create_llm_claude_missing env hk] at hmsg
      injection hmsg with h2
      subst h2
      decide
    | true =>
      rw [create_llm_claude_ok env hk] at hmsg
      exact absurd hmsg (by simp)

/-- C10 witness: the mixed-case value "OpenAI" selects the openai provider. -/
theorem C10_provider_lowercasing_witness :
    envMixedCase "LLM_PROVIDER" = some "OpenAI" ∧
    strLower "OpenAI" ∈ supportedProviders ∧
    resolvedProvider envMixedCase = strLower "OpenAI" :=
  ⟨rfl, by decide, (C10_provider_lowercasing envMixedCase "OpenAI" rfl (by decide)).1⟩

/-! Branch lemmas for `runMain`, one per control-flow outcome of `main`. -/

theorem runMain_missing_key (w : World) (h : truthy (w.env "PIA_API_KEY") = false) :
    runMain w = { exitCode := 1, trace := [.missingKeyReport], results := [] } := by
  simp [runMain, h]

theorem runMain_discovery_error (w : World) (h : truthy (w.env "PIA_API_KEY") = true)
    (e : String) (hg : w.getTools = .error e) :
    runMain w = ⟨1,
      [.toolDiscovery (getenvD w.env "PIA_MCP_URL" "https://mcp.programintegrity.org"),
        .discoveryFailureReport e], []⟩ := by
  simp [runMain, h, hg]

theorem runMain_config_error (w : World) (h : truthy (w.env "PIA_API_KEY") = true)
    (tools : List String) (hg : w.getTools = .ok tools)
    (e : String) (hc : create_llm w.env (resolvedProvider w.env) = .error e) :
    runMain w = ⟨1,
      [.toolDiscovery (getenvD w.env "PIA_MCP_URL" "https://mcp.programintegrity.org"),
        .configFailureReport e], []⟩ := by
  simp [runMain, h, hg, hc]

theorem runMain_ok (w : World) (h : truthy (w.env "PIA_API_KEY") = true)
    (tools : List String) (hg : w.getTools = .ok tools)
    (llm : LLM) (hc : create_llm w.env (resolvedProvider w.env) = .ok llm) :
    runMain w = ⟨0,
      Event.toolDiscovery (getenvD w.env "PIA_MCP_URL" "https://mcp.programintegrity.org")
        :: queryEvents w.ainvoke (queriesOf w.argv),
      runQueries w.ainvoke (queriesOf w.argv)⟩ := by
  simp [runMain, h, hg, hc]

/-- C3 (amended): the process exits 1 when `PIA_API_KEY` is absent or empty;
when it is present, a run in which tool discovery and model creation succeed
exits 0, with errors during query execution caught and recorded per query
without aborting the process; a run in which tool discovery or model
creation raises also exits 1 (unhandled exception), not 0. -/
theorem C3_exit_codes (w : World) :
    (truthy (w.env "PIA_API_KEY") = false → (runMain w).exitCode = 1) ∧
    (truthy (w.env "PIA_API_KEY") = true →
      (∀ e, w.getTools = .error e → (runMain w).exitCode = 1) ∧
      (∀ e, create_llm w.env (resolvedProvider w.env) = .error e →
        (runMain w).exitCode = 1) ∧
      (∀ tools llm, w.getTools = .ok tools →
        create_llm w.env (resolvedProvider w.env) = .ok llm →
        (runMain w).exitCode = 0 ∧
        (runMain w).results = runQueries w.ainvoke (queriesOf w.argv))) := by
  refine ⟨fun h => by rw [runMain_missing_key w h], fun h => ⟨?_, ?_, ?_⟩⟩
  · intro e hg
    rw [runMain_discovery_error w h e hg]
  · intro e hc
    cases hg : w.getTools with
    | error e2 => rw [runMain_discovery_error w h e2 hg]
    | ok tools => rw [runMain_config_error w h tools hg e hc]
  · intro tools llm hg hc
    rw [runMain_ok w h tools hg llm hc]
    exact ⟨rfl, rfl⟩

/-- C3 counterexample: a run with `PIA_API_KEY` present but the defaulted
provider's credential missing exits 1, not 0 — `create_llm` raises an
unhandled `ValueError` — refuting "exit code 0 in every other run". -/
theorem C3_exit_codes_counterexample :
    truthy (wMissingOpenAIKey.env "PIA_API_KEY") = true ∧
    (runMain wMissingOpenAIKey).exitCode = 1 ∧
    (runMain wMissingOpenAIKey).exitCode ≠ 0 := by
  refine ⟨rfl, ?_, ?_⟩ <;> decide

/-- C3 witness: a fully configured run with succeeding oracles exits 0 and
records the per-query outcomes. -/
theorem C3_exit_codes_witness :
    truthy (wGood.env "PIA_API_KEY") = true ∧
    (runMain wGood).exitCode = 0 ∧
    (runMain wGood).results = runQueries wGood.ainvoke (queriesOf wGood.argv) :=
  ⟨rfl, ((C3_exit_codes wGood).2 rfl).2.2 ["search"]
    (.chatOpenAI "gpt-4o-mini" 0 "sk-test") rfl (by rfl)⟩

/-- C4 (amended): absence of the tool-endpoint credential is reported with
exit 1 before any network activity; the selected provider's configuration
failure is reported with a non-zero exit only after the tool-discovery
network call, though still before any model call. -/
theorem C4_config_vs_network (w : World) :
    (truthy (w.env "PIA_API_KEY") = false →
      (runMain w).exitCode = 1 ∧ ∀ e ∈ (runMain w).trace, e.isNetwork = false) ∧
    (∀ msg tools, truthy (w.env "PIA_API_KEY") = true → w.getTools = .ok tools →
      create_llm w.env (resolvedProvider w.env) = .error msg →
      (runMain w).exitCode = 1 ∧
      (runMain w).trace =
        [.toolDiscovery (getenvD w.env "PIA_MCP_URL" "https://mcp.programintegrity.org"),
         .configFailureReport msg] ∧
      ∀ e ∈ (runMain w).trace, e.isModelCall = false) := by
  constructor
  · intro h
    rw [runMain_missing_key w h]
    refine ⟨rfl, ?_⟩
    intro e he
    simp only [List.mem_cons, List.not_mem_nil, or_false] at he
    subst he
    rfl
  · intro msg tools h hg hc
    rw [runMain_config_error w h tools hg msg hc]
    refine ⟨rfl, rfl, ?_⟩
    intro e he
    simp only [List.mem_cons, List.not_mem_nil, or_false] at he
    rcases he with he | he <;> subst he <;> rfl

/-- C4 counterexample: with `PIA_API_KEY` set and `OPENAI_API_KEY` missing,
the run performs the network tool-discovery call first and reports the
configuration failure of the selected provider only afterwards, so a
network-bound call precedes the validation of required configuration. -/
theorem C4_config_vs_network_counterexample :
    (runMain wMissingOpenAIKey).trace =
      [.toolDiscovery "https://mcp.programintegrity.org",
       .configFailureReport openaiKeyRequiredMsg] ∧
    Event.isNetwork (.toolDiscovery "https://mcp.programintegrity.org") = true ∧
    (runMain wMissingOpenAIKey).exitCode = 1 := by
  refine ⟨?_, rfl, ?_⟩ <;> decide

/-- C4 witness: a run with no credentials exits 1 with no network event. -/
theorem C4_config_vs_network_witness :
    (runMain wNoKey).exitCode = 1 ∧ ∀ e ∈ (runMain wNoKey).trace, e.isNetwork = false :=
  (C4_config_vs_network wNoKey).1 rfl

/-- C6 (amended): the tool-endpoint URL is optional, not required: when
`PIA_MCP_URL` is unset the run proceeds against the default endpoint
`https://mcp.programintegrity.org`; only the access credential's absence
prints a message and exits 1. -/
theorem C6_url_defaulted (w : World) (hu : w.env "PIA_MCP_URL" = none) :
    (truthy (w.env "PIA_API_KEY") = true →
      Event.toolDiscovery "https://mcp.programintegrity.org" ∈ (runMain w).trace) ∧
    (truthy (w.env "PIA_API_KEY") = false → (runMain w).exitCode = 1) := by
  have hurl : getenvD w.env "PIA_MCP_URL" "https://mcp.programintegrity.org"
      = "https://mcp.programintegrity.org" := by
    unfold getenvD
    rw [hu]
    rfl
  constructor
  · intro hk
    cases hg : w.getTools with
    | error e =>
      rw [runMain_discovery_error w hk e hg, hurl]
      simp
    | ok tools =>
      cases hc : create_llm w.env (resolvedProvider w.env) with
      | error e =>
        rw [runMain_config_error w hk tools hg e hc, hurl]
        simp
      | ok llm =>
        rw [runMain_ok w hk tools hg llm hc, hurl]
        simp
  · intro hk
    rw [runMain_missing_key w hk]

/-- C6 counterexample: with `PIA_MCP_URL` unset and both credentials present,
the run proceeds to use the default tool endpoint and exits 0, so the URL's
absence does not stop the program from using a tool endpoint. -/
theorem C6_url_required_counterexample :
    wGood.env "PIA_MCP_URL" = none ∧
    (runMain wGood).exitCode = 0 ∧
    Event.toolDiscovery "https://mcp.programintegrity.org" ∈ (runMain wGood).trace := by
  refine ⟨rfl, ?_, ?_⟩ <;> decide

/-- C6 witness: concrete runs exercising both halves of the amended claim. -/
theorem C6_url_defaulted_witness :
    Event.toolDiscovery "https://mcp.programintegrity.org" ∈ (runMain wGood).trace ∧
    (runMain wNoKey).exitCode = 1 :=
  ⟨(C6_url_defaulted wGood rfl).1 rfl, (C6_url_defaulted wNoKey rfl).2 rfl⟩
